import Mathlib

/-!
Verification of the Discovery & Matching Engine of the usemypwa application.

The definitions below are shallow embeddings of the TypeScript source:
  * `src/pages/HomePage.tsx` — `loadSwipedPosts`, `loadProfiles`, `loadPosts`,
    `calculateDistance`, `handleSwipe` (plus `MapPage`'s `loadProfessionals`,
    which lives in the same source file);
  * `src/pages/PostsPage.tsx` — `loadPosts`, `incrementViews`;
  * `src/components/Swipe/PostSwipeCard.tsx` and `SwipeCard` —
    `handleTouchEnd` / `handleMouseUp` gesture classification;
  * `src/components/Stories/StoryViewerModal.tsx` — `incrementViews`.

Modelling conventions:
  * the Supabase store is passed in explicitly as lists of rows; a
    PostgREST query (`eq`, `neq`, `or`, `in`, `not ... is null`, `gt`,
    `order`) becomes a filter / stable sort over those lists, preserving
    store order (JavaScript's `Array.prototype.sort` is stable, hence
    `List.mergeSort`);
  * ISO-8601 timestamps compare lexicographically, which coincides with
    chronological order, so they are modelled as `Nat`;
  * coordinates are stored as `Option ℚ` (decimal degrees from the data
    store); the trigonometric distance computation is over `ℝ`;
  * JavaScript truthiness on an optional number (`undefined`, `null` and
    `0` are falsy) is `truthyQ`; on an optional string, `none` and `""`
    are falsy;
  * a fallible counter write is represented by the `(row id, value)` it
    would write (`none` = no write), and `handleSwipe` takes the success
    of its match insert as an explicit boolean, returning the rows that
    ended up in the store;
  * the React components early-return without touching state when no
    user/profile is loaded or the role does not match the page; the
    functions below model the body that runs past those guards, i.e. the
    selection pass itself.
-/

/-- Swipe actions, `MatchAction` in `src/lib/supabase.ts`
(`'like' | 'pass' | 'super_like'`). -/
inductive MatchAction where
  | like
  | pass
  | superLike
  deriving DecidableEq, Repr

/-- A row of the `profiles` table (`Profile` in `src/lib/supabase.ts`).
Fields not consulted by the modelled operations (bio, phone, address,
city, postal code, points, timestamps) are omitted. -/
structure Profile where
  id : String
  user_type : String
  full_name : String
  avatar_url : Option String := none
  latitude : Option ℚ := none
  longitude : Option ℚ := none
  deriving DecidableEq, Repr

/-- A row of the `professional_profiles` table (`ProfessionalProfile` in
`src/lib/supabase.ts`); unused fields omitted. -/
structure ProfessionalProfile where
  id : String
  user_id : String
  company_name : Option String := none
  category : Option String := none
  ape_code : Option String := none
  verified : Bool := false
  deriving DecidableEq, Repr

/-- A row of the `posts` table (`Post` in `src/lib/supabase.ts`): both
persistent posts (`type = "post"`) and ephemeral stories
(`type = "story"`, with `expires_at` set at creation). -/
structure Post where
  id : String
  user_id : String
  caption : Option String := none
  content : Option String := none
  image_url : Option String := none
  type : String
  ape_code : Option String := none
  views : Nat := 0
  expires_at : Option Nat := none
  created_at : Nat := 0
  deriving DecidableEq, Repr

/-- A row of the `matches` table (`Match` in `src/lib/supabase.ts`),
restricted to the fields written by `handleSwipe` and read by the
selection queries (`id` and `created_at` are store-generated). -/
structure MatchRow where
  user_id : String
  target_user_id : String
  action : MatchAction
  matched : Bool
  post_id : Option String
  deriving DecidableEq, Repr

/-- JavaScript truthiness of an optional numeric field:
`undefined`, `null` and `0` are falsy. -/
def truthyQ (x : Option ℚ) : Bool :=
  match x with
  | some v => v != 0
  | none => false

/-- `HomePage.tsx` / `PostsPage.tsx`: a user is a professional when
`user_type` is `'professional'` or `'professionnel'`. -/
def isProfessionalType (t : String) : Bool :=
  t == "professional" || t == "professionnel"

/-- `HomePage.tsx`: a user is an individual when `user_type` is
`'individual'` or `'particulier'`. -/
def isIndividualType (t : String) : Bool :=
  t == "individual" || t == "particulier"

/-! ## Gesture classifier

`PostSwipeCard.handleTouchEnd` (threshold 80), `SwipeCard.handleTouchEnd`
(threshold 80) and `SwipeCard.handleMouseUp` (threshold 100) all run the
same decision tree on the final drag offset, so it is factored out with
the threshold as a parameter, exactly as each handler's body reads:

    if (Math.abs(dragOffset.x) > threshold) {
      if (dragOffset.x > 0) { onSwipe('like'); } else { onSwipe('pass'); }
    } else if (dragOffset.y < -threshold) {
      onSwipe('super_like');
    }

Offsets are client-pixel differences (JavaScript numbers), modelled as
rationals. The result is the single emitted action, `none` when the card
snaps back with no action. -/

/-- The decision tree each `handleTouchEnd` / `handleMouseUp` evaluates on
the final drag offset. -/
def classifyGesture (threshold : ℚ) (offsetX offsetY : ℚ) : Option MatchAction :=
  if |offsetX| > threshold then
    if offsetX > 0 then some MatchAction.like else some MatchAction.pass
  else if offsetY < -threshold then
    some MatchAction.superLike
  else
    none

/-- `PostSwipeCard.handleTouchEnd`: early-returns when no drag is in
progress, otherwise classifies with threshold 80. -/
def handleTouchEnd (isDragging : Bool) (offsetX offsetY : ℚ) : Option MatchAction :=
  if !isDragging then none else classifyGesture 80 offsetX offsetY

/-- `SwipeCard.handleMouseUp`: early-returns when no drag is in progress,
otherwise classifies with threshold 100. -/
def handleMouseUp (isDragging : Bool) (offsetX offsetY : ℚ) : Option MatchAction :=
  if !isDragging then none else classifyGesture 100 offsetX offsetY

/-! ## Distance calculator

`calculateDistance` in `HomePage.tsx` (the identical copies in
`MapPage.tsx` and `DiscoverPage.tsx` are the same function): the
haversine great-circle distance with Earth radius 6371 km. JavaScript's
`Math.atan2(y, x)` is the argument of the complex number `x + y·i`. -/

/-- `Math.atan2(y, x)`: the angle of the point `(x, y)`, in `(-π, π]`
(and `0` at the origin), i.e. the complex argument of `x + y·i`. -/
noncomputable def atan2 (y x : ℝ) : ℝ := Complex.arg ⟨x, y⟩

/-- `calculateDistance` from `HomePage.tsx`. -/
noncomputable def calculateDistance (lat1 lon1 lat2 lon2 : ℝ) : ℝ :=
  let R : ℝ := 6371
  let dLat := (lat2 - lat1) * Real.pi / 180
  let dLon := (lon2 - lon1) * Real.pi / 180
  let a :=
    Real.sin (dLat / 2) * Real.sin (dLat / 2) +
    Real.cos (lat1 * Real.pi / 180) * Real.cos (lat2 * Real.pi / 180) *
    Real.sin (dLon / 2) * Real.sin (dLon / 2)
  let c := 2 * atan2 (Real.sqrt a) (Real.sqrt (1 - a))
  R * c

/-- The intermediate value `a` of `calculateDistance`, named so the
theorems can manipulate it. -/
noncomputable def havA (lat1 lon1 lat2 lon2 : ℝ) : ℝ :=
  Real.sin ((lat2 - lat1) * Real.pi / 180 / 2) *
    Real.sin ((lat2 - lat1) * Real.pi / 180 / 2) +
  Real.cos (lat1 * Real.pi / 180) * Real.cos (lat2 * Real.pi / 180) *
    Real.sin ((lon2 - lon1) * Real.pi / 180 / 2) *
    Real.sin ((lon2 - lon1) * Real.pi / 180 / 2)

/-! ## Professional candidate selection (`HomePage.loadPosts`)

    const { data: professionalData } = await supabase
      .from('professional_profiles').select('ape_code')
      .eq('user_id', user.id).maybeSingle();
    if (!professionalData?.ape_code) { setPosts([]); ... return; }
    const { data: postsData } = await supabase
      .from('posts').select('*')
      .neq('user_id', user.id)
      .or(`ape_code.eq.${professionalData.ape_code},ape_code.is.null`)
      .order('created_at', { ascending: false });
    ... enrich with author ...
    const unswipedPosts = enrichedPosts.filter(p => !swipedPosts.includes(p.id));
    setPosts(unswipedPosts);

Note the query has no filter on `type` or `expires_at`. -/

/-- A post enriched with author information, as built by `loadPosts` in
`HomePage.tsx` / `PostsPage.tsx` (`{ ...post, author_name, author_avatar }`). -/
structure EnrichedPost where
  post : Post
  author_name : String
  author_avatar : Option String := none
  deriving DecidableEq, Repr

/-- The author enrichment step: look up the author's profile,
defaulting the name to `'Utilisateur'` (JS `||`, so an empty name also
falls back). -/
def enrichAuthor (profiles : List Profile) (p : Post) : EnrichedPost :=
  let profileData := profiles.find? (fun pr => pr.id == p.user_id)
  { post := p
    author_name :=
      match profileData with
      | some pr => if pr.full_name == "" then "Utilisateur" else pr.full_name
      | none => "Utilisateur"
    author_avatar := profileData.bind (fun pr => pr.avatar_url) }

/-- `.order('created_at', { ascending: false })`: stable sort by creation
time, most recent first. -/
def sortByCreatedDesc (l : List Post) : List Post :=
  l.mergeSort (fun a b => decide (b.created_at ≤ a.created_at))

/-- The `posts` query of `HomePage.loadPosts`: content not owned by the
viewer whose classification code equals the viewer's or is null, most
recent first. -/
def candidatePool (store : List Post) (viewerId code : String) : List Post :=
  sortByCreatedDesc (store.filter (fun p =>
    decide (p.user_id ≠ viewerId ∧ (p.ape_code = some code ∨ p.ape_code = none))))

/-- `HomePage.loadSwipedPosts`: ids of posts the professional has already
acted on — `matches` rows with this `user_id` and a non-null `post_id`
(`.filter(Boolean)` additionally drops empty strings). -/
def loadSwipedPosts (matchRows : List MatchRow) (viewerId : String) : List String :=
  ((matchRows.filter (fun m => decide (m.user_id = viewerId ∧ m.post_id ≠ none))).filterMap
    (fun m => m.post_id)).filter (fun s => decide (s ≠ ""))

/-- `HomePage.loadPosts`: the professional's candidate list. Returns `[]`
when the viewer has no truthy `ape_code` (no professional-profile row, a
null code, or an empty-string code — JS `!professionalData?.ape_code`),
otherwise the author-enriched candidate pool minus already-swiped posts. -/
def loadPostsHome (store : List Post) (profiles : List Profile)
    (profDetails : List ProfessionalProfile) (viewerId : String)
    (swipedPosts : List String) : List EnrichedPost :=
  match (profDetails.find? (fun d => d.user_id == viewerId)).bind (fun d => d.ape_code) with
  | none => []
  | some code =>
      if code == "" then []
      else
        let postsData := candidatePool store viewerId code
        let enrichedPosts := postsData.map (enrichAuthor profiles)
        enrichedPosts.filter (fun p => decide (p.post.id ∉ swipedPosts))

/-! ## Individual candidate selection (`HomePage.loadProfiles`)

The list of professionals who liked one of the individual's posts,
each enriched with professional detail, distance (when both sides have
truthy coordinates) and an active-story flag. The enriched list is set
as-is: `setProfiles(enrichedProfiles)` — no sorting step. -/

/-- The candidate card built by `HomePage.loadProfiles`
(`{ profile, professionalProfile, distance, hasStory }`). -/
structure HomeCard where
  profil : Profile
  professionalProfile : Option ProfessionalProfile
  distance : Option ℝ
  hasStory : Bool

/-- The active-story test of the `posts` query in `loadProfiles`
(`.eq('type', 'story').gt('expires_at', nowIso)`; a SQL comparison with a
null `expires_at` is not true). -/
def isActiveStoryOf (uid : String) (now : Nat) (p : Post) : Bool :=
  p.user_id == uid && p.type == "story" &&
    (match p.expires_at with
     | some t => decide (now < t)
     | none => false)

/-- The individual's own content (`posts` rows with `user_id = viewer`). -/
def ownedPosts (posts : List Post) (uid : String) : List Post :=
  posts.filter (fun p => p.user_id == uid)

/-- Helper for `dedupFirst`. -/
def dedupFirstAux (seen : List String) : List String → List String
  | [] => []
  | a :: rest =>
      if a ∈ seen then dedupFirstAux seen rest
      else a :: dedupFirstAux (a :: seen) rest

/-- `array.filter((id, index, self) => self.indexOf(id) === index)`:
deduplication keeping the first occurrence of each element. -/
def dedupFirst (l : List String) : List String := dedupFirstAux [] l

/-- The per-candidate enrichment of `loadProfiles`: professional detail
(`maybeSingle`), active-story flag (`limit(1)` then non-emptiness), and
distance — computed only when viewer and candidate both have truthy
coordinates (JS `&&`: a missing or zero coordinate disables it). -/
noncomputable def enrichInterestedProfile (profDetails : List ProfessionalProfile)
    (posts : List Post) (viewer : Profile) (now : Nat) (prof : Profile) : HomeCard :=
  let professionalData := profDetails.find? (fun d => d.user_id == prof.id)
  let storyData := (posts.filter (isActiveStoryOf prof.id now)).take 1
  let distance : Option ℝ :=
    if truthyQ viewer.latitude && truthyQ viewer.longitude &&
        truthyQ prof.latitude && truthyQ prof.longitude then
      some (calculateDistance ((viewer.latitude.getD 0 : ℚ) : ℝ)
        ((viewer.longitude.getD 0 : ℚ) : ℝ)
        ((prof.latitude.getD 0 : ℚ) : ℝ)
        ((prof.longitude.getD 0 : ℚ) : ℝ))
    else none
  { profil := prof
    professionalProfile := professionalData
    distance := distance
    hasStory := !storyData.isEmpty }

/-- `HomePage.loadProfiles`: the individual's candidate list — the
professionals holding a match that targets the viewer and references one
of the viewer's own posts, in profile-store retrieval order, enriched.
Returns `[]` when the viewer owns no content or no professional has
liked it. -/
noncomputable def loadProfiles (posts : List Post) (matchRows : List MatchRow)
    (profiles : List Profile) (profDetails : List ProfessionalProfile)
    (viewer : Profile) (now : Nat) : List HomeCard :=
  let userPosts := ownedPosts posts viewer.id
  if userPosts.length = 0 then []
  else
    let postIds := userPosts.map (fun p => p.id)
    let matchesData := matchRows.filter (fun m =>
      (match m.post_id with
       | some pid => decide (pid ∈ postIds)
       | none => false) && m.target_user_id == viewer.id)
    let professionalIds := dedupFirst (matchesData.map (fun m => m.user_id))
    if professionalIds.length = 0 then []
    else
      let profilesData := profiles.filter (fun p =>
        decide (p.id ∈ professionalIds) &&
          (p.user_type == "professional" || p.user_type == "professionnel"))
      profilesData.map (enrichInterestedProfile profDetails posts viewer now)

/-! ## Swipe handling (`HomePage.handleSwipe`)

For a professional the current post is recorded in the match ledger
(failure is logged, non-blocking) and the session advances; for an
individual the session only advances. Out-of-range indices early-return
(`posts[currentIndex]` is then not accessed, modelled by `l[i]?`). -/

/-- The session state `handleSwipe` reads and writes: the two candidate
lists, the cursor and the swiped-post ids. -/
structure SessionState where
  posts : List EnrichedPost
  profiles : List HomeCard
  currentIndex : Nat
  swipedPosts : List String

/-- `HomePage.handleSwipe`. `insertOk` is whether the `matches` insert
succeeded; the returned list holds the rows actually persisted (empty on
failure). The state advance does not depend on `insertOk`. -/
def handleSwipe (viewer : Profile) (action : MatchAction) (insertOk : Bool)
    (st : SessionState) : SessionState × List MatchRow :=
  if isProfessionalType viewer.user_type then
    match st.posts[st.currentIndex]? with
    | none => (st, [])
    | some currentPost =>
        let inserted :=
          if insertOk then
            [{ user_id := viewer.id
               target_user_id := currentPost.post.user_id
               action := action
               matched := false
               post_id := some currentPost.post.id }]
          else []
        ({ st with
            swipedPosts := st.swipedPosts ++ [currentPost.post.id]
            currentIndex := st.currentIndex + 1 }, inserted)
  else if isIndividualType viewer.user_type then
    match st.profiles[st.currentIndex]? with
    | none => (st, [])
    | some _ => ({ st with currentIndex := st.currentIndex + 1 }, [])
  else (st, [])

/-! ## Map-page professional listing (`MapPage.loadProfessionals`)

    ... fetch professionals (neq connected user) ... enrich ...
    const withDistance = filteredProfiles.filter(p => p.distance !== undefined);
    const withoutDistance = filteredProfiles.filter(p => p.distance === undefined);
    withDistance.sort((a, b) => (a.distance || 0) - (b.distance || 0));
    const sortedProfiles = [...withDistance, ...withoutDistance]; -/

/-- The card built by `MapPage.loadProfessionals`
(`{ profile, professionalProfile, distance }`). -/
structure MapCard where
  profil : Profile
  professionalProfile : Option ProfessionalProfile
  distance : Option ℝ

/-- `userLocation || (profile?.latitude && profile?.longitude ?
{ lat, lng } : null)`. -/
def referenceLocation (userLoc : Option (ℚ × ℚ)) (viewer : Option Profile) :
    Option (ℚ × ℚ) :=
  match userLoc with
  | some l => some l
  | none =>
      match viewer with
      | some v =>
          if truthyQ v.latitude && truthyQ v.longitude then
            some (v.latitude.getD 0, v.longitude.getD 0)
          else none
      | none => none

/-- The per-professional enrichment of `loadProfessionals`: professional
detail and distance from the reference location (only when the reference
location exists and the professional's coordinates are truthy). -/
noncomputable def mapEnrich (profDetails : List ProfessionalProfile)
    (refLoc : Option (ℚ × ℚ)) (prof : Profile) : MapCard :=
  { profil := prof
    professionalProfile := profDetails.find? (fun d => d.user_id == prof.id)
    distance :=
      match refLoc with
      | some loc =>
          if truthyQ prof.latitude && truthyQ prof.longitude then
            some (calculateDistance ((loc.1 : ℚ) : ℝ) ((loc.2 : ℚ) : ℝ)
              ((prof.latitude.getD 0 : ℚ) : ℝ) ((prof.longitude.getD 0 : ℚ) : ℝ))
          else none
      | none => none }

/-- The enriched, viewer-excluded list of `loadProfessionals`, in
profile-store retrieval order (`.neq('id', profile?.id || '00000000-…')`
then `filter(p => p.profile.id !== profile?.id)`). -/
noncomputable def mapFilteredProfiles (profiles : List Profile)
    (profDetails : List ProfessionalProfile) (viewer : Option Profile)
    (userLoc : Option (ℚ × ℚ)) : List MapCard :=
  let viewerId :=
    match viewer with
    | some v => if v.id == "" then "00000000-0000-0000-0000-000000000000" else v.id
    | none => "00000000-0000-0000-0000-000000000000"
  let profilesData := profiles.filter (fun p =>
    (p.user_type == "professional" || p.user_type == "professionnel") &&
      p.id != viewerId)
  let refLoc := referenceLocation userLoc viewer
  let enrichedProfiles := profilesData.map (mapEnrich profDetails refLoc)
  enrichedProfiles.filter (fun p =>
    match viewer with
    | some v => p.profil.id != v.id
    | none => true)

/-- `filteredProfiles.filter(p => p.distance !== undefined)`. -/
noncomputable def mapWithDistance (profiles : List Profile)
    (profDetails : List ProfessionalProfile) (viewer : Option Profile)
    (userLoc : Option (ℚ × ℚ)) : List MapCard :=
  (mapFilteredProfiles profiles profDetails viewer userLoc).filter
    (fun p => p.distance.isSome)

/-- `filteredProfiles.filter(p => p.distance === undefined)`. -/
noncomputable def mapWithoutDistance (profiles : List Profile)
    (profDetails : List ProfessionalProfile) (viewer : Option Profile)
    (userLoc : Option (ℚ × ℚ)) : List MapCard :=
  (mapFilteredProfiles profiles profDetails viewer userLoc).filter
    (fun p => p.distance.isNone)

/-- The JS comparator `(a, b) => (a.distance || 0) - (b.distance || 0)`
as the "comes no later than" relation of a stable sort. -/
noncomputable def mapLe (a b : MapCard) : Bool :=
  decide (a.distance.getD 0 ≤ b.distance.getD 0)

/-- `MapPage.loadProfessionals`: professionals with a computed distance
first, stably sorted by ascending distance, then those without one in
retrieval order. -/
noncomputable def loadProfessionals (profiles : List Profile)
    (profDetails : List ProfessionalProfile) (viewer : Option Profile)
    (userLoc : Option (ℚ × ℚ)) : List MapCard :=
  (mapWithDistance profiles profDetails viewer userLoc).mergeSort mapLe ++
    mapWithoutDistance profiles profDetails viewer userLoc

/-! ## Posts page (`PostsPage.tsx`) -/

/-- The `validPosts` filter of `PostsPage.loadPosts`: an enriched post is
kept unless it is a story with a set expiration that is not strictly in
the future:

    if (post.type === 'story' && post.expires_at) {
      return new Date(post.expires_at) > new Date();
    }
    return true; -/
def validPostB (p : Post) (now : Nat) : Bool :=
  match p.type == "story", p.expires_at with
  | true, some e => decide (now < e)
  | _, _ => true

/-- `PostsPage.loadPosts`: the viewer's own posts (all of them for an
individual — any non-professional user counts as individual on this page
— only null-`ape_code` promotions for a professional), most recent
first, author-enriched, expired stories filtered out. -/
def loadPostsPages (store : List Post) (profiles : List Profile)
    (viewer : Profile) (now : Nat) : List EnrichedPost :=
  let base :=
    if !(isProfessionalType viewer.user_type) then
      store.filter (fun p => p.user_id == viewer.id)
    else
      store.filter (fun p => p.user_id == viewer.id && p.ape_code == none)
  let sorted := sortByCreatedDesc base
  let enrichedPosts := sorted.map (enrichAuthor profiles)
  enrichedPosts.filter (fun p => validPostB p.post now)

/-- `PostsPage.incrementViews`: find the clicked post in the loaded list
and write `views + 1` back (no check of who is clicking). Result is the
`(post id, value)` written, `none` when the post is not in the list. -/
def postsIncrementViews (posts : List EnrichedPost) (postId : String) :
    Option (String × Nat) :=
  match posts.find? (fun p => p.post.id == postId) with
  | none => none
  | some post => some (postId, post.post.views + 1)

/-- `StoryViewerModal`'s `incrementViews`: when the modal is open on a
story and the watcher is not the owner, write `(views ?? 0) + 1` back;
otherwise write nothing. -/
def storyViewerIncrement (isOpen : Bool) (story : Option Post)
    (isOwner : Bool) : Option (String × Nat) :=
  if !isOpen then none
  else
    match story with
    | none => none
    | some s => if isOwner then none else some (s.id, s.views + 1)

/-! ## The ordering predicate of claim C2 (stated from the spec's words)

"every entry with a computed distance precedes every entry without one,
and within the group of entries having a distance the list is sorted in
non-decreasing distance order". -/

/-- The ordering property claim C2 asserts of a candidate list: whenever
entry `ci` precedes entry `cj`, a distance on `cj` forces one on `ci`
(entries with a distance come first), and two present distances are
non-decreasing. -/
def distanceOrdered (l : List HomeCard) : Prop :=
  ∀ (i j : Nat) (ci cj : HomeCard), i < j → l[i]? = some ci → l[j]? = some cj →
    (cj.distance.isSome = true → ci.distance.isSome = true)
    ∧ (∀ di dj, ci.distance = some di → cj.distance = some dj → di ≤ dj)

/-! ## Concrete store rows used by witnesses and counterexamples -/

/-- Expired story (expired for any query time past 10): a general
request (`ape_code` null) of individual `ind1`. -/
def cExpiredStory : Post :=
  { id := "s1", user_id := "ind1", type := "story", ape_code := none,
    expires_at := some 10, created_at := 5 }

/-- Professional-profile row of viewer `pro1` with code `62.01Z`. -/
def cProDetail : ProfessionalProfile :=
  { id := "d1", user_id := "pro1", ape_code := some "62.01Z" }

/-- Scenario-1 pool: an item with the viewer's code. -/
def cPostMatching : Post :=
  { id := "a", user_id := "i1", type := "post", ape_code := some "62.01Z",
    created_at := 3 }

/-- Scenario-1 pool: a general (null-code) item. -/
def cPostGeneral : Post :=
  { id := "b", user_id := "i2", type := "post", ape_code := none, created_at := 2 }

/-- Scenario-1 pool: an item with a different code. -/
def cPostOther : Post :=
  { id := "c", user_id := "i3", type := "post", ape_code := some "47.11Z",
    created_at := 1 }

/-- An individual viewer with coordinates `(1, 1)`. -/
def cIndViewer : Profile :=
  { id := "ind1", user_type := "particulier", full_name := "Iris",
    latitude := some 1, longitude := some 1 }

/-- A professional without stored coordinates. -/
def cProNoCoords : Profile :=
  { id := "proA", user_type := "professional", full_name := "Ana" }

/-- A professional with coordinates `(2, 2)`. -/
def cProWithCoords : Profile :=
  { id := "proB", user_type := "professional", full_name := "Bob",
    latitude := some 2, longitude := some 2 }

/-- A post owned by the individual viewer. -/
def cOwnedPost : Post :=
  { id := "o1", user_id := "ind1", type := "post", ape_code := some "62.01Z",
    created_at := 1 }

/-- `proA` liked the individual's post. -/
def cMatchA : MatchRow :=
  { user_id := "proA", target_user_id := "ind1", action := MatchAction.like,
    matched := false, post_id := some "o1" }

/-- `proB` liked the individual's post. -/
def cMatchB : MatchRow :=
  { user_id := "proB", target_user_id := "ind1", action := MatchAction.like,
    matched := false, post_id := some "o1" }

/-- A match row recording that `pro1` already swiped post `a`. -/
def cSwipedMatch : MatchRow :=
  { user_id := "pro1", target_user_id := "i1", action := MatchAction.pass,
    matched := false, post_id := some "a" }

/-- A post the page owner clicks on in `PostsPage` (5 views so far). -/
def cOwnViewedPost : Post :=
  { id := "p1", user_id := "ind1", type := "post", ape_code := some "62.01Z",
    views := 5, created_at := 1 }

/-- A session state with one pending candidate post for `pro1`. -/
def cSessionOne : SessionState :=
  { posts := [enrichAuthor [] cPostMatching]
    profiles := []
    currentIndex := 0
    swipedPosts := [] }

/-- A session state whose cursor is past both (empty) candidate lists. -/
def cSessionDone : SessionState :=
  { posts := [], profiles := [], currentIndex := 0, swipedPosts := [] }

/-- A professional viewer profile for `pro1`. -/
def cProViewer : Profile :=
  { id := "pro1", user_type := "professionnel", full_name := "Paul" }

/-! # Theorems -/

/-- Claim C3: for every drag ending with final offset `(x, y)` and
configured threshold `t`: if `|x| > t` the classifier emits `like` when
`x > 0` and `pass` when `x < 0`, regardless of the vertical offset
(horizontal priority); otherwise, if `y < -t` it emits `super_like`;
otherwise it emits no action. The classifier returns a single
`Option MatchAction`, so exactly one outcome is emitted per interaction
end. -/
theorem classifyGesture_spec (t x y : ℚ) :
    (|x| > t → x > 0 → classifyGesture t x y = some MatchAction.like)
    ∧ (|x| > t → x < 0 → classifyGesture t x y = some MatchAction.pass)
    ∧ (¬ |x| > t → y < -t → classifyGesture t x y = some MatchAction.superLike)
    ∧ (¬ |x| > t → ¬ y < -t → classifyGesture t x y = none) := by
  refine ⟨fun h1 h2 => ?_, fun h1 h2 => ?_, fun h1 h2 => ?_, fun h1 h2 => ?_⟩
  · simp [classifyGesture, h1, h2]
  · simp [classifyGesture, h1, h2, not_lt.mpr h2.le]
  · simp [classifyGesture, h1, h2]
  · simp [classifyGesture, h1, h2]

/-- Witness for C3, from the spec's example scenarios 2 and 3: with
threshold 80, a drag ending at `(95, -10)` emits `like` (horizontal
priority) and a drag ending at `(30, -120)` emits `super_like`. -/
theorem classifyGesture_spec_witness :
    classifyGesture 80 95 (-10) = some MatchAction.like
    ∧ classifyGesture 80 30 (-120) = some MatchAction.superLike :=
  ⟨(classifyGesture_spec 80 95 (-10)).1 (by norm_num) (by norm_num),
   (classifyGesture_spec 80 30 (-120)).2.2.1 (by norm_num) (by norm_num)⟩

theorem calculateDistance_eq (lat1 lon1 lat2 lon2 : ℝ) :
    calculateDistance lat1 lon1 lat2 lon2 =
      6371 * (2 * atan2 (Real.sqrt (havA lat1 lon1 lat2 lon2))
        (Real.sqrt (1 - havA lat1 lon1 lat2 lon2))) := rfl

theorem havA_swap (lat1 lon1 lat2 lon2 : ℝ) :
    havA lat2 lon2 lat1 lon1 = havA lat1 lon1 lat2 lon2 := by
  unfold havA
  have e1 : (lat1 - lat2) * Real.pi / 180 / 2 = -((lat2 - lat1) * Real.pi / 180 / 2) := by
    ring
  have e2 : (lon1 - lon2) * Real.pi / 180 / 2 = -((lon2 - lon1) * Real.pi / 180 / 2) := by
    ring
  rw [e1, e2, Real.sin_neg, Real.sin_neg]
  ring

theorem havA_self (lat lon : ℝ) : havA lat lon lat lon = 0 := by
  unfold havA
  simp [sub_self]

/-- Claim C8: the haversine distance is symmetric, and the distance from
a coordinate pair to itself is `0`. -/
theorem calculateDistance_spec :
    (∀ lat1 lon1 lat2 lon2 : ℝ,
      calculateDistance lat1 lon1 lat2 lon2 = calculateDistance lat2 lon2 lat1 lon1)
    ∧ (∀ lat lon : ℝ, calculateDistance lat lon lat lon = 0) := by
  constructor
  · intro lat1 lon1 lat2 lon2
    rw [calculateDistance_eq, calculateDistance_eq, havA_swap]
  · intro lat lon
    rw [calculateDistance_eq, havA_self]
    have h1 : (⟨1, 0⟩ : ℂ) = 1 := by
      apply Complex.ext <;> simp
    simp [atan2, h1, Complex.arg_one]

/-- Witness for C8 at a concrete coordinate pair. -/
theorem calculateDistance_spec_witness :
    calculateDistance 3 4 3 4 = 0 := calculateDistance_spec.2 3 4

/-- Membership in the `loadPosts` query result (sorting does not change
membership). -/
theorem mem_candidatePool {store : List Post} {viewerId code : String} {p : Post} :
    p ∈ candidatePool store viewerId code ↔
      p ∈ store ∧ p.user_id ≠ viewerId ∧ (p.ape_code = some code ∨ p.ape_code = none) := by
  unfold candidatePool sortByCreatedDesc
  rw [List.mem_mergeSort, List.mem_filter]
  simp

/-- Claim C4: for every professional viewer with classification code `c`,
the candidate pool is exactly the content whose owner is not the viewer
and whose classification code equals `c` or is null; any other non-null
code is excluded. -/
theorem candidatePool_spec (store : List Post) (viewerId code : String) (p : Post) :
    p ∈ candidatePool store viewerId code ↔
      p ∈ store ∧ p.user_id ≠ viewerId ∧ (p.ape_code = some code ∨ p.ape_code = none) :=
  mem_candidatePool

/-- Witness for C4, the spec's example scenario 1: a viewer with code
`62.01Z` facing items coded `62.01Z`, null and `47.11Z` gets exactly the
first two. -/
theorem candidatePool_spec_witness :
    cPostMatching ∈ candidatePool [cPostMatching, cPostGeneral, cPostOther] "pro1" "62.01Z"
    ∧ cPostGeneral ∈ candidatePool [cPostMatching, cPostGeneral, cPostOther] "pro1" "62.01Z"
    ∧ cPostOther ∉ candidatePool [cPostMatching, cPostGeneral, cPostOther] "pro1" "62.01Z" :=
  ⟨(candidatePool_spec _ _ _ _).mpr (by decide),
   (candidatePool_spec _ _ _ _).mpr (by decide),
   fun h => absurd ((candidatePool_spec _ _ _ _).mp h) (by decide)⟩

/-- Every entry of `loadPostsHome`'s result survived the
already-swiped filter. -/
theorem mem_loadPostsHome_not_swiped {store : List Post} {profiles : List Profile}
    {profDetails : List ProfessionalProfile} {viewerId : String}
    {swipedPosts : List String} {e : EnrichedPost}
    (he : e ∈ loadPostsHome store profiles profDetails viewerId swipedPosts) :
    e.post.id ∉ swipedPosts := by
  unfold loadPostsHome at he
  split at he
  · simp at he
  · split at he
    · simp at he
    · rw [List.mem_filter] at he
      simpa using he.2

/-- Claim C5: the professional's candidate list excludes every content
item an existing match record by this viewer refers to (so, within one
selection pass over a fixed store, no already-acted-on candidate is
served again). Post ids are store-generated and non-empty. -/
theorem loadPostsHome_excludes_swiped (store : List Post) (profiles : List Profile)
    (profDetails : List ProfessionalProfile) (matchRows : List MatchRow)
    (viewerId pid : String) (m : MatchRow) (hm : m ∈ matchRows)
    (hu : m.user_id = viewerId) (hp : m.post_id = some pid) (hpid : pid ≠ "") :
    (loadPostsHome store profiles profDetails viewerId
      (loadSwipedPosts matchRows viewerId)).all (fun e => e.post.id != pid) = true := by
  have hmem : pid ∈ loadSwipedPosts matchRows viewerId := by
    unfold loadSwipedPosts
    rw [List.mem_filter]
    refine ⟨?_, by simpa using hpid⟩
    rw [List.mem_filterMap]
    refine ⟨m, ?_, hp⟩
    rw [List.mem_filter]
    exact ⟨hm, by simp [hu, hp]⟩
  rw [List.all_eq_true]
  intro e he
  have hne := mem_loadPostsHome_not_swiped he
  simp only [bne_iff_ne, ne_eq]
  intro hEq
  exact hne (hEq ▸ hmem)

/-- Witness for C5: `pro1` has already swiped post `a`; the reloaded
candidate list contains no entry with id `a`. -/
theorem loadPostsHome_excludes_swiped_witness :
    (loadPostsHome [cPostMatching, cPostGeneral, cPostOther] [] [cProDetail] "pro1"
      (loadSwipedPosts [cSwipedMatch] "pro1")).all (fun e => e.post.id != "a") = true :=
  loadPostsHome_excludes_swiped _ _ _ _ _ _ cSwipedMatch (by decide) rfl rfl (by decide)

/-- Claim C1 (code bug): `HomePage.loadPosts` queries the `posts` table
with no condition on `type` or `expires_at`, so a story whose
`expires_at` lies before the query time is still served to the
professional viewer — here the story expired at time 10 is returned
although `PostsPage`'s own `validPosts` filter (`validPostB`) classifies
it as expired at query time 100. -/
theorem loadPostsHome_serves_expired_story :
    cExpiredStory ∈ (loadPostsHome [cExpiredStory] [] [cProDetail] "pro1" []).map
      (fun e => e.post)
    ∧ cExpiredStory.type = "story"
    ∧ cExpiredStory.expires_at = some 10
    ∧ validPostB cExpiredStory 100 = false := by
  refine ⟨?_, rfl, rfl, by decide⟩
  rw [List.mem_map]
  refine ⟨enrichAuthor [] cExpiredStory, ?_, rfl⟩
  show enrichAuthor [] cExpiredStory ∈
    List.filter (fun p => decide (p.post.id ∉ ([] : List String)))
      (List.map (enrichAuthor []) (candidatePool [cExpiredStory] "pro1" "62.01Z"))
  rw [List.mem_filter]
  exact ⟨List.mem_map_of_mem _ (mem_candidatePool.mpr (by decide)), by decide⟩

/-- Claim C6: when the role-specific precondition fails — a professional
viewer without a truthy classification code, or an individual owning no
content — the selection pass returns the empty list (both functions are
total, so no error is raised). -/
theorem selection_empty_on_missing_precondition :
    (∀ (store : List Post) (profiles : List Profile)
        (profDetails : List ProfessionalProfile) (viewerId : String)
        (swipedPosts : List String),
      (profDetails.find? (fun d => d.user_id == viewerId)).bind (fun d => d.ape_code)
          = none →
      loadPostsHome store profiles profDetails viewerId swipedPosts = [])
    ∧ (∀ (posts : List Post) (matchRows : List MatchRow) (profiles : List Profile)
        (profDetails : List ProfessionalProfile) (viewer : Profile) (now : Nat),
      ownedPosts posts viewer.id = [] →
      loadProfiles posts matchRows profiles profDetails viewer now = []) := by
  constructor
  · intro store profiles profDetails viewerId swipedPosts h
    simp [loadPostsHome, h]
  · intro posts matchRows profiles profDetails viewer now h
    simp [loadProfiles, h]

/-- Witness for C6: a viewer with no professional-profile row gets `[]`,
and an individual with no posts gets `[]`. -/
theorem selection_empty_on_missing_precondition_witness :
    loadPostsHome [cExpiredStory] [] [] "pro1" [] = []
    ∧ loadProfiles [] [] [] [] cIndViewer 100 = [] :=
  ⟨selection_empty_on_missing_precondition.1 _ _ _ _ _ rfl,
   selection_empty_on_missing_precondition.2 _ _ _ _ _ _ rfl⟩

/-- Claim C7: for a professional viewer with a current candidate, the
session state after a swipe does not depend on whether the match insert
succeeded — the candidate id is appended to the swiped set and the index
advances by one either way, and on failure nothing is persisted.
`handleSwipe` is total: no error reaches the caller. -/
theorem handleSwipe_insert_failure_advances (viewer : Profile) (action : MatchAction)
    (st : SessionState) (currentPost : EnrichedPost)
    (hpro : isProfessionalType viewer.user_type = true)
    (hcp : st.posts[st.currentIndex]? = some currentPost) :
    (handleSwipe viewer action false st).1 = (handleSwipe viewer action true st).1
    ∧ (handleSwipe viewer action false st).1.swipedPosts
        = st.swipedPosts ++ [currentPost.post.id]
    ∧ (handleSwipe viewer action false st).1.currentIndex = st.currentIndex + 1
    ∧ (handleSwipe viewer action false st).2 = [] := by
  simp [handleSwipe, hpro, hcp]

/-- Witness for C7 at a concrete session: the failed-insert swipe leaves
the same state as the successful one. -/
theorem handleSwipe_insert_failure_advances_witness :
    (handleSwipe cProViewer MatchAction.like false cSessionOne).1
        = (handleSwipe cProViewer MatchAction.like true cSessionOne).1
    ∧ (handleSwipe cProViewer MatchAction.like false cSessionOne).1.swipedPosts
        = cSessionOne.swipedPosts ++ [(enrichAuthor [] cPostMatching).post.id]
    ∧ (handleSwipe cProViewer MatchAction.like false cSessionOne).1.currentIndex
        = cSessionOne.currentIndex + 1
    ∧ (handleSwipe cProViewer MatchAction.like false cSessionOne).2 = [] :=
  handleSwipe_insert_failure_advances cProViewer MatchAction.like cSessionOne
    (enrichAuthor [] cPostMatching) (by decide) (by decide)

/-- Claim C10: when the cursor is at or past the end of the candidate
lists, `handleSwipe` is a no-op — it inserts no match record and returns
the state unchanged, for any viewer role. -/
theorem handleSwipe_out_of_range_noop (viewer : Profile) (action : MatchAction)
    (insertOk : Bool) (st : SessionState)
    (hposts : st.posts.length ≤ st.currentIndex)
    (hprofiles : st.profiles.length ≤ st.currentIndex) :
    handleSwipe viewer action insertOk st = (st, []) := by
  have h1 : st.posts[st.currentIndex]? = none := List.getElem?_eq_none hposts
  have h2 : st.profiles[st.currentIndex]? = none := List.getElem?_eq_none hprofiles
  unfold handleSwipe
  rw [h1, h2]
  split
  · rfl
  · split
    · rfl
    · rfl

/-- Witness for C10 at a concrete exhausted session. -/
theorem handleSwipe_out_of_range_noop_witness :
    handleSwipe cProViewer MatchAction.like true cSessionDone = (cSessionDone, []) :=
  handleSwipe_out_of_range_noop cProViewer MatchAction.like true cSessionDone
    (by decide) (by decide)

/-- Claim C9 counterexample: on `PostsPage` the listed posts are the
viewer's own, and a click (impression) by the owner still writes
`views + 1` — with the counter at 5, the owner's impression writes 6
instead of leaving the counter unchanged as the claim requires. -/
theorem postsIncrementViews_owner_increments :
    cOwnViewedPost.user_id = cIndViewer.id
    ∧ cOwnViewedPost.views = 5
    ∧ postsIncrementViews (loadPostsPages [cOwnViewedPost] [] cIndViewer 100) "p1"
        = some ("p1", 6) := by
  refine ⟨rfl, rfl, ?_⟩
  have h : loadPostsPages [cOwnViewedPost] [] cIndViewer 100
      = [enrichAuthor [] cOwnViewedPost] := by
    show List.filter (fun p => validPostB p.post 100)
        (List.map (enrichAuthor []) (sortByCreatedDesc [cOwnViewedPost]))
      = [enrichAuthor [] cOwnViewedPost]
    rw [show sortByCreatedDesc [cOwnViewedPost] = [cOwnViewedPost] from
      List.mergeSort_singleton cOwnViewedPost]
    decide
  rw [h]
  decide

/-- Claim C9 amended: an impression through the story viewer by a
non-owner writes exactly the read value plus one and an owner impression
there writes nothing; the `PostsPage` click handler, however, writes the
read value plus one for whichever post is found, with no owner
exemption. -/
theorem incrementViews_spec :
    (∀ s : Post, storyViewerIncrement true (some s) false = some (s.id, s.views + 1))
    ∧ (∀ s : Post, storyViewerIncrement true (some s) true = none)
    ∧ (∀ (posts : List EnrichedPost) (postId : String) (post : EnrichedPost),
        posts.find? (fun p => p.post.id == postId) = some post →
        postsIncrementViews posts postId = some (postId, post.post.views + 1)) := by
  refine ⟨fun s => rfl, fun s => rfl, fun posts postId post h => ?_⟩
  unfold postsIncrementViews
  rw [h]

/-- Witness for C9 (amended), third conjunct at a concrete list. -/
theorem incrementViews_spec_witness :
    postsIncrementViews [enrichAuthor [] cOwnViewedPost] "p1"
      = some ("p1", (enrichAuthor [] cOwnViewedPost).post.views + 1) :=
  incrementViews_spec.2.2 _ _ (enrichAuthor [] cOwnViewedPost) (by decide)

/-- Claim C2 counterexample: `HomePage.loadProfiles` performs no sorting
— it sets the enriched list in profile-store retrieval order. With the
store returning first a professional without coordinates and then one
with coordinates (both having liked the viewer's post), the resulting
candidate list has a distance-less entry before an entry with a
distance, so the claimed ordering fails. -/
theorem loadProfiles_not_distanceOrdered :
    ¬ distanceOrdered (loadProfiles [cOwnedPost] [cMatchA, cMatchB]
        [cProNoCoords, cProWithCoords] [] cIndViewer 100) := by
  intro h
  have hout : loadProfiles [cOwnedPost] [cMatchA, cMatchB]
      [cProNoCoords, cProWithCoords] [] cIndViewer 100
      = [enrichInterestedProfile [] [cOwnedPost] cIndViewer 100 cProNoCoords,
         enrichInterestedProfile [] [cOwnedPost] cIndViewer 100 cProWithCoords] := rfl
  rw [hout] at h
  have h01 := (h 0 1
      (enrichInterestedProfile [] [cOwnedPost] cIndViewer 100 cProNoCoords)
      (enrichInterestedProfile [] [cOwnedPost] cIndViewer 100 cProWithCoords)
      (by norm_num) rfl rfl).1 rfl
  have hA : (enrichInterestedProfile [] [cOwnedPost] cIndViewer 100
      cProNoCoords).distance = none := rfl
  rw [hA] at h01
  simp at h01

/-- Claim C2 amended: the distance ordering holds of the map-page
professional listing `loadProfessionals` (not of the individual's
interested-professionals list, see the counterexample): its result is
the with-distance group — a permutation of the with-distance entries,
stably sorted in non-decreasing distance order (pairs already in
comparator order, in particular ties, keep their retrieval order) —
followed by the without-distance entries in retrieval order. -/
theorem loadProfessionals_ordering (profiles : List Profile)
    (profDetails : List ProfessionalProfile) (viewer : Option Profile)
    (userLoc : Option (ℚ × ℚ)) :
    ∃ w : List MapCard,
      loadProfessionals profiles profDetails viewer userLoc
          = w ++ mapWithoutDistance profiles profDetails viewer userLoc
      ∧ w.Perm (mapWithDistance profiles profDetails viewer userLoc)
      ∧ (∀ e ∈ w, e.distance.isSome = true)
      ∧ (∀ e ∈ mapWithoutDistance profiles profDetails viewer userLoc,
          e.distance.isSome = false)
      ∧ w.Pairwise (fun a b => a.distance.getD 0 ≤ b.distance.getD 0)
      ∧ (∀ a b : MapCard,
          List.Sublist [a, b] (mapWithDistance profiles profDetails viewer userLoc) →
          a.distance.getD 0 ≤ b.distance.getD 0 →
          List.Sublist [a, b] w) := by
  have htrans : ∀ a b c : MapCard, mapLe a b → mapLe b c → mapLe a c := by
    intro a b c hab hbc
    simp only [mapLe, decide_eq_true_eq] at hab hbc ⊢
    exact le_trans hab hbc
  have htotal : ∀ a b : MapCard, mapLe a b || mapLe b a := by
    intro a b
    simpa [mapLe] using le_total (a.distance.getD 0) (b.distance.getD 0)
  refine ⟨(mapWithDistance profiles profDetails viewer userLoc).mergeSort mapLe,
    rfl, List.mergeSort_perm _ _, ?_, ?_, ?_, ?_⟩
  · intro e he
    rw [List.mem_mergeSort] at he
    unfold mapWithDistance at he
    exact (List.mem_filter.mp he).2
  · intro e he
    unfold mapWithoutDistance at he
    have hn := (List.mem_filter.mp he).2
    simp only [Option.isNone_iff_eq_none] at hn
    simp [hn]
  · have hs := List.sorted_mergeSort htrans htotal
      (mapWithDistance profiles profDetails viewer userLoc)
    exact hs.imp (fun hab => by simpa [mapLe, decide_eq_true_eq] using hab)
  · intro a b hsub hle
    exact List.pair_sublist_mergeSort htrans htotal
      (by simpa [mapLe, decide_eq_true_eq] using hle) hsub
